import Mathlib

/-!
Shallow embedding of the Wake-T beam-dynamics toolkit and verification of the
specification claims about it. The embedded modules are
`wake_t/beamline_elements.py`, `wake_t/wakefields.py` and
`wake_t/utilities/bunch_generation.py`.

Python floats are modelled as exact rationals; `scipy.constants` values appear
as their exact decimal literals. Classes from `wake_t.driver_witness` and
`wake_t.particle_tracking` are referenced but not authored by the embedded
modules; where their behavior decides a claim they are modelled from the
specification, and each such definition says so in its doc comment.
-/

namespace WakeT

/-- Speed of light `scipy.constants.c` in m/s (exact). -/
def c_SI : ℚ := 299792458

/-- Elementary charge `scipy.constants.e` in C (exact CODATA value 1.602176634e-19). -/
def e_SI : ℚ := 1602176634 / 10 ^ 28

/-- Electron mass `scipy.constants.m_e` in kg (CODATA value 9.1093837015e-31). -/
def m_e_SI : ℚ := 91093837015 / 10 ^ 41

/-- Column of the 6×N phase-space matrix, in the `get_6D_matrix` row order
`[x, px, y, py, xi, pz]` (spec §4.1; `beamline_elements.py` line 203 unpacks
`x, px, y, py, xi, pz = beam_matrix`). The 6×N matrix is represented by its
list of columns, one per particle. -/
structure Col where
  x : ℚ
  px : ℚ
  y : ℚ
  py : ℚ
  xi : ℚ
  pz : ℚ
deriving DecidableEq, Repr

/-- Modelled from the spec: `ParticleBunch` (module `wake_t.driver_witness`,
not under `src/`) stores the per-particle arrays `q, x, y, xi, px, py, pz`
plus the scalar `prop_distance` (spec §3 and §4.1). -/
structure ParticleBunch where
  q : List ℚ
  x : List ℚ
  y : List ℚ
  xi : List ℚ
  px : List ℚ
  py : List ℚ
  pz : List ℚ
  prop_distance : ℚ
deriving DecidableEq, Repr

/-- Pointwise zip of the six coordinate arrays into matrix columns. -/
def zip6 : List ℚ → List ℚ → List ℚ → List ℚ → List ℚ → List ℚ → List Col
  | a :: as, b :: bs, c :: cs, d :: ds, e :: es, f :: fs =>
      ⟨a, b, c, d, e, f⟩ :: zip6 as bs cs ds es fs
  | _, _, _, _, _, _ => []

/-- Modelled from the spec: `ParticleBunch.get_6D_matrix` stacks the arrays in
the fixed order `[x, px, y, py, xi, pz]` into a 6×N matrix (spec §4.1),
represented here as the list of its columns. -/
def ParticleBunch.get_6D_matrix (b : ParticleBunch) : List Col :=
  zip6 b.x b.px b.y b.py b.xi b.pz

/-- Modelled from the spec: `ParticleBunch.set_phase_space` overwrites the six
coordinate arrays, leaving `q` and `prop_distance` untouched (spec §4.1). -/
def ParticleBunch.set_phase_space (b : ParticleBunch)
    (x y xi px py pz : List ℚ) : ParticleBunch :=
  { b with x := x, y := y, xi := xi, px := px, py := py, pz := pz }

/-- Modelled from the spec: `ParticleBunch.increase_prop_distance` adds the
given length to `prop_distance` (spec §4.1). -/
def ParticleBunch.increase_prop_distance (b : ParticleBunch) (dist : ℚ) :
    ParticleBunch :=
  { b with prop_distance := b.prop_distance + dist }

/-- Particles per worker block, `int(np.ceil(num_part/num_proc))`
(`beamline_elements.py` line 185): the ceiling division of the particle count
by the process count. -/
def part_per_proc (num_part num_proc : ℕ) : ℕ :=
  (num_part + num_proc - 1) / num_proc

/-- Worker partition (`beamline_elements.py` lines 191-192): block `p` is the
column slice `mat[:, p*w:(p+1)*w]` for `p` ranging over the process count. -/
def splitBlocks (mat : List Col) (num_proc w : ℕ) : List (List Col) :=
  (List.range num_proc).map (fun p => (mat.drop (p * w)).take w)

theorem le_mul_ceilDiv (N k : ℕ) (hk : 0 < k) : N ≤ k * ((N + k - 1) / k) := by
  rcases Nat.eq_zero_or_pos N with h0 | h0
  · simp [h0]
  · have h2 := Nat.div_add_mod (N + k - 1) k
    have h3 := Nat.mod_lt (N + k - 1) hk
    set A := k * ((N + k - 1) / k) with hA
    set r := (N + k - 1) % k with hr
    omega

theorem join_splitBlocks (w : ℕ) :
    ∀ (k : ℕ) (l : List Col), l.length ≤ k * w →
      ((List.range k).map (fun p => (l.drop (p * w)).take w)).flatten = l := by
  intro k
  induction k with
  | zero =>
      intro l hl
      have : l = [] := List.eq_nil_of_length_eq_zero (by omega)
      simp [this]
  | succ n ih =>
      intro l hl
      rw [List.range_succ_eq_map, List.map_cons, List.map_map, List.flatten_cons]
      have hdrop : ∀ p : ℕ, l.drop (Nat.succ p * w) = (l.drop w).drop (p * w) := by
        intro p
        rw [List.drop_drop, Nat.succ_mul, Nat.add_comm]
      have htail :
          ((List.range n).map ((fun p => (l.drop (p * w)).take w) ∘ Nat.succ)).flatten
            = l.drop w := by
        have : ((fun p => (l.drop (p * w)).take w) ∘ Nat.succ)
            = fun p => ((l.drop w).drop (p * w)).take w := by
          funext p
          simp [Function.comp, hdrop p]
        rw [this]
        apply ih
        calc (l.drop w).length = l.length - w := l.length_drop w
          _ ≤ (n + 1) * w - w := Nat.sub_le_sub_right hl w
          _ = n * w := by rw [Nat.succ_mul, Nat.add_sub_cancel]
      rw [htail]
      simp

/-- C10: for every 6×N phase-space matrix and every worker count
`num_proc ≥ 1`, splitting the matrix into `num_proc` consecutive column blocks
of width `ceil(N/num_proc)` and concatenating the blocks in order
(`np.concatenate(matrix_list, axis=1)`, line 202) yields exactly the original
matrix: no column is dropped, duplicated, or reordered. -/
theorem partition_reassembly_exact (mat : List Col) (num_proc : ℕ)
    (h : 1 ≤ num_proc) :
    (splitBlocks mat num_proc (part_per_proc mat.length num_proc)).flatten = mat := by
  unfold splitBlocks part_per_proc
  exact join_splitBlocks _ _ _ (le_mul_ceilDiv mat.length num_proc h)

/-- Witness for C10 at a concrete 6×3 matrix split across 2 workers. -/
theorem partition_reassembly_exact_witness :
    1 ≤ 2 ∧
    (splitBlocks [⟨1, 0, 0, 0, 0, 0⟩, ⟨2, 0, 0, 0, 0, 0⟩, ⟨3, 0, 0, 0, 0, 0⟩] 2
        (part_per_proc 3 2)).flatten
      = [⟨1, 0, 0, 0, 0, 0⟩, ⟨2, 0, 0, 0, 0, 0⟩, ⟨3, 0, 0, 0, 0, 0⟩] :=
  ⟨by decide,
   partition_reassembly_exact
     [⟨1, 0, 0, 0, 0, 0⟩, ⟨2, 0, 0, 0, 0, 0⟩, ⟨3, 0, 0, 0, 0, 0⟩] 2 (by decide)⟩

/-- Models the external sampler `scipy.stats.truncnorm.rvs(a, b, loc=loc,
scale=scale, size=n)`: each returned variate is `loc + scale * s` for a
standard truncated-normal draw `s`, and by the sampler's contract every
standard draw lies in `[a, b]`. The underlying standard draws are made
explicit as the list `u`; theorems assume `u ⊆ [a, b]`, which is exactly the
truncation guarantee. -/
def truncnorm_rvs (a b loc scale : ℚ) (u : List ℚ) : List ℚ :=
  u.map (fun s => loc + scale * s)

/-- Longitudinal spread `s_z = s_t*1e-15*ct.c` (`bunch_generation.py`
line 63). -/
def sigma_z (s_t : ℚ) : ℚ := s_t * (1 / 10 ^ 15) * c_SI

/-- Longitudinal positions drawn by `get_gaussian_bunch_from_twiss`
(`bunch_generation.py` lines 63 and 88):
`xi = truncnorm.rvs(-3, 3, loc=xi_c, scale=s_z, size=n_part)`. The transverse
coordinates and momenta (lines 64-94) do not influence `xi` and are outside
this claim's slice of the function. -/
def get_gaussian_bunch_from_twiss_xi (s_t xi_c : ℚ) (u : List ℚ) : List ℚ :=
  truncnorm_rvs (-3) 3 xi_c (sigma_z s_t) u

/-- Delegation from `get_gaussian_bunch_from_size` (`bunch_generation.py`
lines 140-144): `s_t` and `xi_c` are forwarded unchanged to the Twiss
generator, so the longitudinal positions are drawn identically. -/
def get_gaussian_bunch_from_size_xi (s_t xi_c : ℚ) (u : List ℚ) : List ℚ :=
  get_gaussian_bunch_from_twiss_xi s_t xi_c u

/-- C6: every particle's `xi` generated by `get_gaussian_bunch_from_twiss`
lies within `[xi_c - 3*sigma_z, xi_c + 3*sigma_z]` where
`sigma_z = s_t*1e-15*c`, for every number of particles (every draw list `u`);
and `get_gaussian_bunch_from_size` delegates with the same `s_t` and `xi_c`,
hence draws the same longitudinal positions. -/
theorem gaussian_bunch_xi_truncated (s_t xi_c : ℚ) (u : List ℚ)
    (hst : 0 ≤ s_t) (hu : ∀ s ∈ u, -3 ≤ s ∧ s ≤ 3) :
    (∀ v ∈ get_gaussian_bunch_from_twiss_xi s_t xi_c u,
        xi_c - 3 * sigma_z s_t ≤ v ∧ v ≤ xi_c + 3 * sigma_z s_t) ∧
    get_gaussian_bunch_from_size_xi s_t xi_c u
      = get_gaussian_bunch_from_twiss_xi s_t xi_c u := by
  constructor
  · intro v hv
    simp only [get_gaussian_bunch_from_twiss_xi, truncnorm_rvs,
      List.mem_map] at hv
    obtain ⟨s, hs, rfl⟩ := hv
    obtain ⟨h1, h2⟩ := hu s hs
    have hz : 0 ≤ sigma_z s_t := by
      simp only [sigma_z, c_SI]
      positivity
    constructor
    · nlinarith [mul_le_mul_of_nonneg_left h1 hz]
    · nlinarith [mul_le_mul_of_nonneg_left h2 hz]
  · rfl

/-- Witness for C6 with `s_t = 1`, `xi_c = 0` and three draws at the
truncation edges and the center. -/
theorem gaussian_bunch_xi_truncated_witness :
    (0 : ℚ) ≤ 1 ∧
    ((∀ v ∈ get_gaussian_bunch_from_twiss_xi 1 0 [-3, 0, 3],
        0 - 3 * sigma_z 1 ≤ v ∧ v ≤ 0 + 3 * sigma_z 1) ∧
     get_gaussian_bunch_from_size_xi 1 0 [-3, 0, 3]
       = get_gaussian_bunch_from_twiss_xi 1 0 [-3, 0, 3]) :=
  ⟨by norm_num,
   gaussian_bunch_xi_truncated 1 0 [-3, 0, 3] (by norm_num)
     (by intro s hs; fin_cases hs <;> norm_num)⟩

/-- Modelled from the spec: `LaserPulse` (module `wake_t.driver_witness`, not
under `src/`) carries the longitudinal center `xi_c`, peak amplitude `a_0`,
waist `w_0` and propagation distance, and provides the derived quantity
`get_group_velocity(n_p)` returning the group velocity as a fraction of `c`
(spec §3 and §4.2); the latter is carried as a function field. -/
structure LaserPulse where
  xi_c : ℚ
  a_0 : ℚ
  w_0 : ℚ
  prop_distance : ℚ
  get_group_velocity : ℚ → ℚ

/-- Stored state of `CustomBlowoutWakefield` (`wakefields.py` lines 36-56). -/
structure CustomBlowoutWakefield where
  n_p : ℚ
  xi_c : ℚ
  field_off : ℚ
  driver : LaserPulse
  g_x : ℚ
  E_z_0 : ℚ
  E_z_p : ℚ
  l_c : ℚ
  b_w : ℚ

/-- Constructor `CustomBlowoutWakefield.__init__` together with
`_calculate_base_quantities` (`wakefields.py` lines 37-56). Lines 52-54 store
`foc_strength`, `lon_field` and `lon_field_slope` unchanged; line 56 stores
the driver's group velocity at density `n_p`. -/
def CustomBlowoutWakefield.init (n_p : ℚ) (driver : LaserPulse)
    (beam_center lon_field lon_field_slope foc_strength : ℚ)
    (field_offset : ℚ) : CustomBlowoutWakefield :=
  { n_p := n_p, xi_c := beam_center, field_off := field_offset,
    driver := driver, g_x := foc_strength, E_z_0 := lon_field,
    E_z_p := lon_field_slope, l_c := driver.xi_c,
    b_w := driver.get_group_velocity n_p }

/-- Transverse field `Wx` (`wakefields.py` lines 58-59), per particle. -/
def CustomBlowoutWakefield.Wx (wf : CustomBlowoutWakefield)
    (x y xi px py pz q gamma t : ℚ) : ℚ :=
  c_SI * wf.g_x * x

/-- Transverse field `Wy` (`wakefields.py` lines 61-62), per particle. -/
def CustomBlowoutWakefield.Wy (wf : CustomBlowoutWakefield)
    (x y xi px py pz q gamma t : ℚ) : ℚ :=
  c_SI * wf.g_x * y

/-- Longitudinal field `Wz` (`wakefields.py` lines 64-66), per particle. -/
def CustomBlowoutWakefield.Wz (wf : CustomBlowoutWakefield)
    (x y xi px py pz q gamma t : ℚ) : ℚ :=
  wf.E_z_0 + wf.E_z_p * (xi - wf.field_off - wf.xi_c + (1 - wf.b_w) * c_SI * t)

/-- Focusing gradient `Kx` (`wakefields.py` lines 68-69), per particle. -/
def CustomBlowoutWakefield.Kx (wf : CustomBlowoutWakefield)
    (x y xi px py pz q gamma t : ℚ) : ℚ :=
  wf.g_x

/-- Concrete driver used in closed evaluations: center 0, amplitude 0,
waist 0, propagation distance 0, group velocity identically 1. -/
def testDriver : LaserPulse := ⟨0, 0, 0, 0, fun _ => 1⟩

/-- Counterexample for C3: with caller values `lon_field = 1`,
`lon_field_slope = 0`, `Wz` at the origin returns the stored `E_z_0 = 1`
itself, not the claimed acceleration-equivalent value `e/(m_e*c)*1`: the
constructor stores the caller's field values unscaled. -/
theorem customBlowout_Wz_not_scaled :
    ¬ ((CustomBlowoutWakefield.init 1 testDriver 0 1 0 0 0).Wz 0 0 0 0 0 0 0 0 0
        = e_SI / (m_e_SI * c_SI) * 1
          + e_SI / (m_e_SI * c_SI) * 0 * (0 - 0 - 0 + (1 - 1) * c_SI * 0)) := by
  norm_num [CustomBlowoutWakefield.init, CustomBlowoutWakefield.Wz, testDriver,
    e_SI, m_e_SI, c_SI]

/-- C3 as amended: for every `CustomBlowoutWakefield` constructed from caller
values and for every phase-space point and time, `Wz` returns
`E_z0 + E_z'*(xi - field_offset - xi_c + (1-b_w)*c*t)` where the stored
`E_z0` and `E_z'` are the caller's `lon_field` and `lon_field_slope`
unchanged (no `e/(m_e*c)` scaling is applied at construction). -/
theorem customBlowout_Wz_formula (n_p : ℚ) (driver : LaserPulse)
    (beam_center lon_field lon_field_slope foc_strength field_offset : ℚ)
    (x y xi px py pz q gamma t : ℚ) :
    (CustomBlowoutWakefield.init n_p driver beam_center lon_field
        lon_field_slope foc_strength field_offset).Wz x y xi px py pz q gamma t
      = lon_field + lon_field_slope
          * (xi - field_offset - beam_center
             + (1 - driver.get_group_velocity n_p) * c_SI * t) := rfl

/-- Errors a tracking call can raise, named after the Python exceptions. -/
inductive PyError
  | nameError (name : String)
  | typeError
  | notImplementedError
  | unboundLocalError (name : String)
  | zeroDivisionError
  | valueError
  | indexError
deriving DecidableEq, Repr

/-- Class names that `from wake_t.wakefields import *` binds in
`wake_t.beamline_elements` (line 12 of `beamline_elements.py`): the classes
defined in `wakefields.py`. The star-import also rebinds that module's own
imports (numpy, constants, helper functions), none of which is a wakefield
class and none of which is named `BlowoutWakefield` either. -/
def wakefieldsStarNames : List String :=
  ["Wakefield", "CustomBlowoutWakefield", "WakefieldFromPICSimulation",
   "NonLinearColdFluidWakefield", "PlasmaRampBlowoutField", "PlasmaLensField",
   "PlasmaLensFieldRelativistic"]

/-- The class name referenced at `beamline_elements.py` line 156 is bound
nowhere: `wakefields.py` defines no `BlowoutWakefield`. -/
theorem blowoutWakefield_not_in_scope :
    "BlowoutWakefield" ∉ wakefieldsStarNames := by decide

/-- Modelled from the spec: the interpolators and driver slip a
`WakefieldFromPICSimulation` obtains through the external PIC data-access
library (spec §4.4); opaque data here, supplied by the caller of the
embedding. -/
structure PICFieldData where
  E_z : ℚ → ℚ → ℚ
  W_x : ℚ → ℚ → ℚ
  K_x : ℚ → ℚ → ℚ
  b_w : ℚ

/-- State of `PlasmaRampBlowoutField` (`wakefields.py` lines 374-376): its
constructor takes and stores exactly one thing, a density function. -/
structure PlasmaRampBlowoutField where
  density_function : ℚ → ℚ

/-- Field model selected by a numerical tracking call. -/
inductive WakefieldModel
  | customBlowout (wf : CustomBlowoutWakefield)
  | fromPIC (pic : PICFieldData)
  | rampBlowout (field : PlasmaRampBlowoutField)

/-- Weighted average `np.average(values, weights)`, the charge-weighted beam
center of `beamline_elements.py` line 159. Total over ℚ; numpy raises on a
zero weight total, a case no claim touches. -/
def wavg (values weights : List ℚ) : ℚ :=
  (List.zipWith (· * ·) values weights).sum / weights.sum

/-- Mode dispatch of `PlasmaStage.track_beam_numerically_RK_parallel`
(`beamline_elements.py` lines 155-164). Line 156 evaluates the name
`BlowoutWakefield`, which no import provides (`wakefieldsStarNames` lists
everything the star-import binds, and `blowoutWakefield_not_in_scope` checks
the absence), so mode "Blowout" raises `NameError` before anything else runs;
an unrecognized mode leaves the local `WF` unbound, so its first use at
line 170 raises `UnboundLocalError`. For "FromPICCode" the externally loaded
grids enter as `picData`. -/
def buildStageWakefield (n_p : ℚ) (laser : LaserPulse) (beam : ParticleBunch)
    (mode : String) (lon_field lon_field_slope foc_strength : ℚ)
    (picData : PICFieldData) : Except PyError WakefieldModel :=
  if mode = "Blowout" then
    Except.error (PyError.nameError "BlowoutWakefield")
  else if mode = "CustomBlowout" then
    Except.ok (WakefieldModel.customBlowout
      (CustomBlowoutWakefield.init n_p laser (wavg beam.xi beam.q)
        lon_field lon_field_slope foc_strength 0))
  else if mode = "FromPICCode" then
    Except.ok (WakefieldModel.fromPIC picData)
  else
    Except.error (PyError.unboundLocalError "WF")

/-- Modelled from the spec: the type of `runge_kutta_4`
(module `wake_t.particle_tracking`, not under `src/`), which advances a block
of particle columns through `iterations` steps of size `dt` under the field
model, starting at absolute time `t0`, and returns a block (spec §4.3). Its
numerical body evaluates square roots, which have no exact rational value, so
the tracking embeddings take the integrator as an argument; every property
proved below holds for every integrator. Argument order:
field model, `dt`, `iterations`, `t0`, block. -/
def RK4Integrator : Type :=
  WakefieldModel → ℚ → ℕ → ℚ → List Col → List Col

/-- Iteration count `iterations = int(t_final/dt)` (`beamline_elements.py`
line 171); for the positive quantities arising there, Python's `int`
truncation is the floor. -/
def iterationCount (t_final dt : ℚ) : ℕ := (⌊t_final / dt⌋).toNat

/-- Per-step iteration floor `it_per_step = max(int(iterations/steps), 1)`
(`beamline_elements.py` line 173). -/
def itPerStep (t_final dt : ℚ) (steps : ℕ) : ℕ :=
  max (iterationCount t_final dt / steps) 1

/-- Adjusted integration step `dt_adjusted = t_final/(it_per_step*steps)`
(`beamline_elements.py` lines 174-175). -/
def dtAdjusted (t_final dt : ℚ) (steps : ℕ) : ℚ :=
  t_final / ((itPerStep t_final dt steps * steps : ℕ) : ℚ)

/-- Snapshot construction (`beamline_elements.py` lines 202-208): the
reassembled matrix is unpacked into coordinate arrays and a new
`ParticleBunch` is built reusing the input bunch's charge array, with
propagation distance `prop_distance + (s+1)*t_step*c`. -/
def snapshotFromMatrix (q0 : List ℚ) (mat : List Col) (pd : ℚ) :
    ParticleBunch :=
  { q := q0, x := mat.map Col.x, y := mat.map Col.y, xi := mat.map Col.xi,
    px := mat.map Col.px, py := mat.map Col.py, pz := mat.map Col.pz,
    prop_distance := pd }

/-- Per-step loop of the numerical tracking paths (`beamline_elements.py`
lines 194-208 and, identically, 498-510): starting at step index `s`, run `n`
more steps; each step first lets the field model refresh itself (`upd`,
modelling the optional `check_if_update_fields(s*t_step)` of lines 196-197;
the ramp path and stages without auto-update pass the identity), then maps
every block through the integrator with `it_ps` iterations of size `dt_adj`
starting at time `s*t_step`, reassembles the blocks with `np.concatenate`
(flatten), and appends a snapshot. -/
def stepLoop (rk4 : RK4Integrator) (upd : ℚ → WakefieldModel → WakefieldModel)
    (q0 : List ℚ) (pd0 : ℚ) (t_step dt_adj : ℚ) (it_ps : ℕ) :
    ℕ → ℕ → WakefieldModel → List (List Col) → List ParticleBunch
  | _, 0, _, _ => []
  | s, n + 1, WF, blocks =>
    let WF2 := upd ((s : ℚ) * t_step) WF
    let blocks2 := blocks.map (rk4 WF2 dt_adj it_ps ((s : ℚ) * t_step))
    snapshotFromMatrix q0 blocks2.flatten (pd0 + ((s : ℚ) + 1) * t_step * c_SI)
      :: stepLoop rk4 upd q0 pd0 t_step dt_adj it_ps (s + 1) n WF2 blocks2

theorem stepLoop_length (rk4 : RK4Integrator)
    (upd : ℚ → WakefieldModel → WakefieldModel) (q0 : List ℚ)
    (pd0 t_step dt_adj : ℚ) (it_ps : ℕ) :
    ∀ (n s : ℕ) (WF : WakefieldModel) (blocks : List (List Col)),
      (stepLoop rk4 upd q0 pd0 t_step dt_adj it_ps s n WF blocks).length = n := by
  intro n
  induction n with
  | zero => intro s WF blocks; rfl
  | succ m ih =>
      intro s WF blocks
      simp only [stepLoop, List.length_cons]
      rw [ih]

/-- Plasma stage configuration (`beamline_elements.py` lines 16-34). -/
structure PlasmaStage where
  n_p : ℚ
  length : ℚ

/-- Embedding of `PlasmaStage.track_beam_numerically_RK_parallel`
(`beamline_elements.py` lines 78-220). `dt` is the value produced by
`_get_optimized_dt` (lines 222-232), whose square-root arithmetic has no
exact rational value; it enters as an explicit argument and the claims are
proved for every positive `dt`. `rk4` and `upd` stand for `runge_kutta_4`
and the optional per-step field refresh; `num_proc` is `n_proc` (or the core
count when `None`). Guards mirror where Python raises: `steps = 0` at
line 169 (`t_step = t_final/steps`), `dt = 0` at line 171, `num_proc = 0` at
`Pool(num_proc)` (line 186), and an empty snapshot list at `beam_list[-1]`
(line 216). The ok value is the committed input bunch (lines 216-219: phase
space overwritten from the last snapshot, `prop_distance` increased by the
stage length) paired with the snapshot list. -/
def PlasmaStage.track_beam_numerically_RK_parallel (stage : PlasmaStage)
    (laser : LaserPulse) (beam : ParticleBunch) (mode : String) (steps : ℕ)
    (lon_field lon_field_slope foc_strength : ℚ) (num_proc : ℕ)
    (picData : PICFieldData) (rk4 : RK4Integrator)
    (upd : ℚ → WakefieldModel → WakefieldModel) (dt : ℚ) :
    Except PyError (ParticleBunch × List ParticleBunch) :=
  match buildStageWakefield stage.n_p laser beam mode lon_field
      lon_field_slope foc_strength picData with
  | Except.error e => Except.error e
  | Except.ok WF =>
    let mat := beam.get_6D_matrix
    let t_final := stage.length / c_SI
    if steps = 0 then Except.error PyError.zeroDivisionError
    else
      let t_step := t_final / (steps : ℚ)
      if dt = 0 then Except.error PyError.zeroDivisionError
      else
        let it_ps := itPerStep t_final dt steps
        let dt_adj := dtAdjusted t_final dt steps
        if num_proc = 0 then Except.error PyError.valueError
        else
          let blocks := splitBlocks mat num_proc
            (part_per_proc mat.length num_proc)
          let beam_list := stepLoop rk4 upd beam.q beam.prop_distance t_step
            dt_adj it_ps 0 steps WF blocks
          match beam_list.getLast? with
          | none => Except.error PyError.indexError
          | some last =>
            Except.ok
              ((beam.set_phase_space last.x last.y last.xi last.px last.py
                  last.pz).increase_prop_distance stage.length,
               beam_list)

/-- Plasma ramp configuration (`beamline_elements.py` lines 397-434). -/
structure PlasmaRamp where
  length : ℚ
  plasma_dens_down : ℚ
  plasma_dens_top : ℚ
  position_down : ℚ
  ramp_type : String
  profile : String

/-- Constructor `PlasmaRamp.__init__` (`beamline_elements.py` lines 401-434):
`position_down` defaults to the ramp length when not given. -/
def PlasmaRamp.init (length plasma_dens_down plasma_dens_top : ℚ)
    (position_down : Option ℚ) (ramp_type profile : String) : PlasmaRamp :=
  { length := length, plasma_dens_down := plasma_dens_down,
    plasma_dens_top := plasma_dens_top,
    position_down := position_down.getD length,
    ramp_type := ramp_type, profile := profile }

/-- Positional-or-keyword parameters of a Python function, in declaration
order (excluding `self`), used for call binding. -/
structure PySignature where
  params : List String

/-- Shape of a Python call site: how many positional arguments are passed and
which keyword names are used. -/
structure PyCall where
  positional : ℕ
  keywords : List String

/-- A Python call binds to a signature without `TypeError` iff the positional
arguments do not outnumber the parameters, every parameter not filled
positionally is filled by a keyword, and every keyword names such a
parameter (none of the signatures involved declare default values for the
parameters in question). -/
def bindsOk (sig : PySignature) (call : PyCall) : Bool :=
  decide (call.positional ≤ sig.params.length) &&
  (sig.params.drop call.positional).all (fun p => p ∈ call.keywords) &&
  call.keywords.all (fun kw => kw ∈ sig.params.drop call.positional)

/-- Signature of `PlasmaRampBlowoutField.__init__` (`wakefields.py`
line 375): one parameter, `density_function`, besides `self`. -/
def plasmaRampBlowoutFieldSig : PySignature := ⟨["density_function"]⟩

/-- Shape of the constructor call made at `beamline_elements.py`
lines 465-470: four positional arguments (`self.length`,
`self.plasma_dens_down`, `self.plasma_dens_top`, `self.position_down`) plus
the keywords `ramp_type` and `profile`. -/
def rampFieldCall : PyCall := ⟨4, ["ramp_type", "profile"]⟩

/-- Field construction attempted by
`PlasmaRamp.track_beam_numerically_RK_parallel` (`beamline_elements.py`
lines 464-470). The argument list does not bind to
`PlasmaRampBlowoutField.__init__`, so the call raises `TypeError`. A
`density_function` that a successful construction would store does not exist
at this call site, which is why the (unreachable) success branch carries a
placeholder constant density. -/
def buildRampField (ramp : PlasmaRamp) : Except PyError PlasmaRampBlowoutField :=
  if bindsOk plasmaRampBlowoutFieldSig rampFieldCall then
    Except.ok ⟨fun _ => ramp.plasma_dens_top⟩
  else
    Except.error PyError.typeError

/-- Embedding of `PlasmaRamp.track_beam_numerically_RK_parallel`
(`beamline_elements.py` lines 436-524). Line 462 checks `non_rel` before
anything else and raises `NotImplementedError`; otherwise lines 465-470
attempt the field construction, and the remaining orchestration
(lines 471-524) is the same as the stage's numerical path with the ramp
blowout field and no per-step field refresh. -/
def PlasmaRamp.track_beam_numerically_RK_parallel (ramp : PlasmaRamp)
    (beam : ParticleBunch) (steps : ℕ) (non_rel : Bool) (num_proc : ℕ)
    (rk4 : RK4Integrator) (dt : ℚ) :
    Except PyError (ParticleBunch × List ParticleBunch) :=
  if non_rel then Except.error PyError.notImplementedError
  else
    match buildRampField ramp with
    | Except.error e => Except.error e
    | Except.ok field =>
      let mat := beam.get_6D_matrix
      let t_final := ramp.length / c_SI
      if steps = 0 then Except.error PyError.zeroDivisionError
      else
        let t_step := t_final / (steps : ℚ)
        if dt = 0 then Except.error PyError.zeroDivisionError
        else
          let it_ps := itPerStep t_final dt steps
          let dt_adj := dtAdjusted t_final dt steps
          if num_proc = 0 then Except.error PyError.valueError
          else
            let blocks := splitBlocks mat num_proc
              (part_per_proc mat.length num_proc)
            let beam_list := stepLoop rk4 (fun _ wf => wf) beam.q
              beam.prop_distance t_step dt_adj it_ps 0 steps
              (WakefieldModel.rampBlowout field) blocks
            match beam_list.getLast? with
            | none => Except.error PyError.indexError
            | some last =>
              Except.ok
                ((beam.set_phase_space last.x last.y last.xi last.px last.py
                    last.pz).increase_prop_distance ramp.length,
                 beam_list)

/-- Embedding of `PlasmaStage.track_beam_analytically` (`beamline_elements.py`
lines 234-366), bookkeeping part. The closed-form per-time snapshot function
`_get_beam_at_specified_time_step_from_paper_final` (lines 368-393) evaluates
square roots, trigonometric functions and logarithms with no exact rational
value; the source partially applies it to fixed per-call data (line 351) and
maps it over the checkpoint times, so it enters here as the argument
`stepFn`, and the properties proved below hold for every such function.
`v_w = laser.get_group_velocity(n_p)*c` (line 242); checkpoint times are
`t_final/steps*(arange(steps)+1)` (line 350); the commit is lines 356-363
(bunch phase space overwritten from the last snapshot, bunch and laser
propagation distances increased by the stage length, laser center shifted by
the slippage `(v_w - c)*t_final`). -/
def PlasmaStage.track_beam_analytically (stage : PlasmaStage)
    (laser : LaserPulse) (beam : ParticleBunch) (steps : ℕ)
    (stepFn : ℚ → ParticleBunch) :
    Except PyError (ParticleBunch × LaserPulse × List ParticleBunch) :=
  let v_w := laser.get_group_velocity stage.n_p * c_SI
  let t_final := stage.length / c_SI
  if steps = 0 then Except.error PyError.zeroDivisionError
  else
    let ts := (List.range steps).map
      (fun i => t_final / (steps : ℚ) * ((i : ℚ) + 1))
    let beam_steps := ts.map stepFn
    match beam_steps.getLast? with
    | none => Except.error PyError.indexError
    | some last =>
      Except.ok
        ((beam.set_phase_space last.x last.y last.xi last.px last.py
            last.pz).increase_prop_distance stage.length,
         { laser with
             prop_distance := laser.prop_distance + stage.length,
             xi_c := laser.xi_c + (v_w - c_SI) * t_final },
         beam_steps)

/-- Concrete one-particle bunch used in closed evaluations. -/
def testBunch : ParticleBunch :=
  { q := [1], x := [0], y := [0], xi := [0], px := [0], py := [0], pz := [1],
    prop_distance := 0 }

/-- Concrete PIC field data used in closed evaluations: zero grids, slip 1. -/
def testPICData : PICFieldData := ⟨fun _ _ => 0, fun _ _ => 0, fun _ _ => 0, 1⟩

/-- Concrete integrator used in closed evaluations: returns each block
unchanged (the claims hold for every integrator). -/
def idRK : RK4Integrator := fun _ _ _ _ blk => blk

/-- Concrete field refresh used in closed evaluations: no refresh. -/
def idUpd : ℚ → WakefieldModel → WakefieldModel := fun _ wf => wf

/-- C1 (code bug): evaluating
`PlasmaRamp.track_beam_numerically_RK_parallel` with `non_rel=False` at a
concrete ramp and bunch raises `TypeError` at the field construction —
`PlasmaRampBlowoutField.__init__` accepts only `density_function`, but the
ramp passes its six configuration values (`beamline_elements.py`
lines 465-470) — so no Plasma-Ramp Blowout Field is ever constructed and the
partition/integrate/reassemble/commit orchestration is never reached. -/
theorem rampTrack_field_construction_raises_typeError :
    PlasmaRamp.track_beam_numerically_RK_parallel
      (PlasmaRamp.init 1 (10 ^ 17) (10 ^ 18) Option.none "upramp"
        "inverse square")
      testBunch 5 false 2 idRK 1
      = Except.error PyError.typeError := rfl

/-- C2 (code bug): evaluating
`PlasmaStage.track_beam_numerically_RK_parallel` with `mode="Blowout"` at a
concrete stage, laser and bunch raises `NameError`, because the class
`BlowoutWakefield` referenced at `beamline_elements.py` line 156 is defined
nowhere — mode "Blowout" never yields a usable wakefield model. -/
theorem stageTrack_blowout_mode_raises_nameError :
    PlasmaStage.track_beam_numerically_RK_parallel ⟨10 ^ 17, 1⟩ testDriver
      testBunch "Blowout" 5 0 0 0 2 testPICData idRK idUpd 1
      = Except.error (PyError.nameError "BlowoutWakefield") := rfl

/-- C7: for every PlasmaRamp, bunch, step count, process count, integrator
and time step, calling `track_beam_numerically_RK_parallel` with
`non_rel=True` returns `NotImplementedError` immediately and unconditionally:
the check at `beamline_elements.py` line 462 precedes the field construction,
the worker-pool creation and every use of the bunch, and the error result
carries no updated bunch, so the input bunch's phase space and
`prop_distance` are unchanged. -/
theorem rampTrack_nonrel_raises_notImplementedError (ramp : PlasmaRamp)
    (beam : ParticleBunch) (steps num_proc : ℕ) (rk4 : RK4Integrator)
    (dt : ℚ) :
    ramp.track_beam_numerically_RK_parallel beam steps true num_proc rk4 dt
      = Except.error PyError.notImplementedError := rfl

/-- C4: for every tracking call — stage numerical, stage analytic, or ramp
numerical — over an element of length `L` that completes normally (returns
`ok`), the input bunch's `prop_distance` after the commit equals its value
before the call plus exactly `L`, for every choice of mode, `steps`,
`n_proc`, integrator, refresh and `dt` (the ramp conjunct holds because its
only exit paths are errors or the same commit). -/
theorem prop_distance_increases_by_length (stage : PlasmaStage)
    (laser : LaserPulse) (beam beamR : ParticleBunch) (mode : String)
    (steps num_proc : ℕ) (lon_field lon_field_slope foc_strength dt : ℚ)
    (picData : PICFieldData) (rk4 : RK4Integrator)
    (upd : ℚ → WakefieldModel → WakefieldModel)
    (stepFn : ℚ → ParticleBunch) (ramp : PlasmaRamp) (non_rel : Bool) :
    (∀ out, stage.track_beam_numerically_RK_parallel laser beam mode steps
        lon_field lon_field_slope foc_strength num_proc picData rk4 upd dt
        = Except.ok out →
      out.1.prop_distance = beam.prop_distance + stage.length) ∧
    (∀ out, stage.track_beam_analytically laser beam steps stepFn
        = Except.ok out →
      out.1.prop_distance = beam.prop_distance + stage.length) ∧
    (∀ out, ramp.track_beam_numerically_RK_parallel beamR steps non_rel
        num_proc rk4 dt = Except.ok out →
      out.1.prop_distance = beamR.prop_distance + ramp.length) := by
  refine ⟨?_, ?_, ?_⟩
  · intro out h
    unfold PlasmaStage.track_beam_numerically_RK_parallel at h
    cases hWF : buildStageWakefield stage.n_p laser beam mode lon_field
        lon_field_slope foc_strength picData with
    | error e => rw [hWF] at h; exact absurd h (by simp)
    | ok WF =>
      rw [hWF] at h
      dsimp only at h
      split at h
      · exact absurd h (by simp)
      · split at h
        · exact absurd h (by simp)
        · split at h
          · exact absurd h (by simp)
          · split at h
            · exact absurd h (by simp)
            · rw [Except.ok.injEq] at h
              subst h
              rfl
  · intro out h
    unfold PlasmaStage.track_beam_analytically at h
    dsimp only at h
    split at h
    · exact absurd h (by simp)
    · split at h
      · exact absurd h (by simp)
      · rw [Except.ok.injEq] at h
        subst h
        rfl
  · intro out h
    unfold PlasmaRamp.track_beam_numerically_RK_parallel at h
    cases non_rel with
    | true => exact absurd h (by simp)
    | false =>
      rw [if_neg (by simp)] at h
      have hbf : buildRampField ramp = Except.error PyError.typeError := rfl
      rw [hbf] at h
      exact absurd h (by simp)

/-- Concrete numerical stage tracking run completing normally. -/
def testStageRun : Except PyError (ParticleBunch × List ParticleBunch) :=
  PlasmaStage.track_beam_numerically_RK_parallel ⟨1, 2⟩ testDriver testBunch
    "CustomBlowout" 1 0 0 0 1 testPICData idRK idUpd 1

/-- Payload of `testStageRun`. -/
def testStageOut : ParticleBunch × List ParticleBunch :=
  testStageRun.toOption.getD (testBunch, [])

/-- Concrete analytic stage tracking run completing normally. -/
def testAnalyticRun :
    Except PyError (ParticleBunch × LaserPulse × List ParticleBunch) :=
  PlasmaStage.track_beam_analytically ⟨1, 2⟩ testDriver testBunch 1
    (fun _ => testBunch)

/-- Payload of `testAnalyticRun`. -/
def testAnalyticOut : ParticleBunch × LaserPulse × List ParticleBunch :=
  testAnalyticRun.toOption.getD (testBunch, testDriver, [])

/-- Witness for C4: a stage of length 2 tracked numerically and analytically
over one step completes normally and leaves `prop_distance = 0 + 2`. -/
theorem prop_distance_increases_by_length_witness :
    testStageRun = Except.ok testStageOut ∧
    testStageOut.1.prop_distance = testBunch.prop_distance + 2 ∧
    testAnalyticRun = Except.ok testAnalyticOut ∧
    testAnalyticOut.1.prop_distance = testBunch.prop_distance + 2 :=
  ⟨rfl,
   (prop_distance_increases_by_length ⟨1, 2⟩ testDriver testBunch testBunch
      "CustomBlowout" 1 1 0 0 0 1 testPICData idRK idUpd (fun _ => testBunch)
      (PlasmaRamp.init 1 1 1 Option.none "upramp" "inverse square") false).1
     testStageOut rfl,
   rfl,
   (prop_distance_increases_by_length ⟨1, 2⟩ testDriver testBunch testBunch
      "CustomBlowout" 1 1 0 0 0 1 testPICData idRK idUpd (fun _ => testBunch)
      (PlasmaRamp.init 1 1 1 Option.none "upramp" "inverse square")
      false).2.1 testAnalyticOut rfl⟩

/-- C5: for every numerical tracking call with `steps ≥ 1` (stage or ramp),
a normally completing call returns exactly `steps` snapshots; the number of
integration iterations passed to the integrator per step is
`max(floor(floor(t_final/dt)/steps), 1)` (the value `itPerStep` the tracking
code hands to `runge_kutta_4`); and whenever `steps` exceeds
`floor(t_final/dt)` — the iteration count implied by the betatron heuristic's
`dt` — the adjusted time step `t_final/(it_per_step*steps)` is no larger than
the originally computed `dt`. -/
theorem steps_snapshots_and_adjusted_dt (stage : PlasmaStage)
    (laser : LaserPulse) (beam beamR : ParticleBunch) (mode : String)
    (steps num_proc : ℕ) (lon_field lon_field_slope foc_strength dt : ℚ)
    (picData : PICFieldData) (rk4 : RK4Integrator)
    (upd : ℚ → WakefieldModel → WakefieldModel) (ramp : PlasmaRamp)
    (non_rel : Bool)
    (hsteps : 1 ≤ steps) (hdt : 0 < dt) (hlen : 0 < stage.length) :
    (∀ out, stage.track_beam_numerically_RK_parallel laser beam mode steps
        lon_field lon_field_slope foc_strength num_proc picData rk4 upd dt
        = Except.ok out →
      out.2.length = steps) ∧
    (∀ out, ramp.track_beam_numerically_RK_parallel beamR steps non_rel
        num_proc rk4 dt = Except.ok out →
      out.2.length = steps) ∧
    itPerStep (stage.length / c_SI) dt steps
      = max ((⌊(stage.length / c_SI) / dt⌋).toNat / steps) 1 ∧
    (iterationCount (stage.length / c_SI) dt < steps →
      dtAdjusted (stage.length / c_SI) dt steps ≤ dt) := by
  refine ⟨?_, ?_, rfl, ?_⟩
  · intro out h
    unfold PlasmaStage.track_beam_numerically_RK_parallel at h
    cases hWF : buildStageWakefield stage.n_p laser beam mode lon_field
        lon_field_slope foc_strength picData with
    | error e => rw [hWF] at h; exact absurd h (by simp)
    | ok WF =>
      rw [hWF] at h
      dsimp only at h
      split at h
      · exact absurd h (by simp)
      · split at h
        · exact absurd h (by simp)
        · split at h
          · exact absurd h (by simp)
          · split at h
            · exact absurd h (by simp)
            · rw [Except.ok.injEq] at h
              subst h
              exact stepLoop_length _ _ _ _ _ _ _ _ _ _ _
  · intro out h
    unfold PlasmaRamp.track_beam_numerically_RK_parallel at h
    cases non_rel with
    | true => exact absurd h (by simp)
    | false =>
      rw [if_neg (by simp)] at h
      have hbf : buildRampField ramp = Except.error PyError.typeError := rfl
      rw [hbf] at h
      exact absurd h (by simp)
  · intro hI
    have hc : (0 : ℚ) < c_SI := by norm_num [c_SI]
    have hT : 0 < stage.length / c_SI := div_pos hlen hc
    have hit : itPerStep (stage.length / c_SI) dt steps = 1 := by
      unfold itPerStep
      rw [Nat.div_eq_of_lt hI]
      omega
    have hdta : dtAdjusted (stage.length / c_SI) dt steps
        = stage.length / c_SI / (steps : ℚ) := by
      unfold dtAdjusted
      rw [hit, one_mul]
    rw [hdta]
    have hfl : ⌊stage.length / c_SI / dt⌋ < (steps : ℤ) := by
      have h0 : (0 : ℤ) ≤ ⌊stage.length / c_SI / dt⌋ :=
        Int.floor_nonneg.mpr (le_of_lt (div_pos hT hdt))
      unfold iterationCount at hI
      omega
    have hq : stage.length / c_SI / dt < (steps : ℚ) := by
      have h1 : stage.length / c_SI / dt
          < (⌊stage.length / c_SI / dt⌋ : ℚ) + 1 := Int.lt_floor_add_one _
      have h2 : ((⌊stage.length / c_SI / dt⌋ : ℤ) : ℚ) + 1 ≤ (steps : ℚ) := by
        have h3 : ⌊stage.length / c_SI / dt⌋ + 1 ≤ (steps : ℤ) := by omega
        exact_mod_cast h3
      linarith
    have hsq : (0 : ℚ) < (steps : ℚ) := by
      exact_mod_cast Nat.lt_of_lt_of_le Nat.zero_lt_one hsteps
    rw [div_le_iff₀ hsq]
    rw [div_lt_iff₀ hdt] at hq
    nlinarith

/-- Concrete numerical stage tracking run with 3 requested steps and a `dt`
heuristic value exceeding the transit time (so the one-iteration floor is
exercised). -/
def testStage3Run : Except PyError (ParticleBunch × List ParticleBunch) :=
  PlasmaStage.track_beam_numerically_RK_parallel ⟨1, 2⟩ testDriver testBunch
    "CustomBlowout" 3 0 0 0 1 testPICData idRK idUpd 1

/-- Payload of `testStage3Run`. -/
def testStage3Out : ParticleBunch × List ParticleBunch :=
  testStage3Run.toOption.getD (testBunch, [])

/-- Witness for C5: the concrete 3-step run completes with exactly 3
snapshots, and with `floor(t_final/dt) = 0 < 3` the adjusted step is no
larger than `dt = 1`. -/
theorem steps_snapshots_and_adjusted_dt_witness :
    1 ≤ 3 ∧ (0 : ℚ) < 1 ∧ (0 : ℚ) < (2 : ℚ) ∧
    testStage3Run = Except.ok testStage3Out ∧
    testStage3Out.2.length = 3 ∧
    dtAdjusted ((2 : ℚ) / c_SI) 1 3 ≤ 1 :=
  ⟨by norm_num, by norm_num, by norm_num, rfl,
   (steps_snapshots_and_adjusted_dt ⟨1, 2⟩ testDriver testBunch testBunch
      "CustomBlowout" 3 1 0 0 0 1 testPICData idRK idUpd
      (PlasmaRamp.init 1 1 1 Option.none "upramp" "inverse square") false
      (by norm_num) (by norm_num) (by norm_num)).1 testStage3Out rfl,
   (steps_snapshots_and_adjusted_dt ⟨1, 2⟩ testDriver testBunch testBunch
      "CustomBlowout" 3 1 0 0 0 1 testPICData idRK idUpd
      (PlasmaRamp.init 1 1 1 Option.none "upramp" "inverse square") false
      (by norm_num) (by norm_num) (by norm_num)).2.2.2
     (by norm_num [iterationCount, c_SI])⟩

/-- Evaluation of the Python expression `n_p*1e-6` when `n_p` may be `None`
(the default of `get_matched_bunch`): multiplying `None` by a float raises
`TypeError` before anything else happens. -/
def pyMulFloat (a : Option ℚ) (b : ℚ) : Except PyError ℚ :=
  match a with
  | Option.none => Except.error PyError.typeError
  | Option.some v => Except.ok (v * b)

/-- Matched-beta computation of `get_matched_bunch` (`bunch_generation.py`
lines 146-192): line 189 evaluates
`b_m = ge.matched_plasma_beta_function(ene, n_p*1e-6, k_x)`, where the unit
conversion `n_p*1e-6` is evaluated before the external physics-formulas
call, and line 190 passes `b_m` for both planes to the Twiss generator. The
external `matched_plasma_beta_function` enters as the abstract argument
`mbeta`; the result is the symmetric `(b_x, b_y)` pair handed on. -/
def get_matched_bunch_beta (mbeta : ℚ → ℚ → Option ℚ → ℚ) (ene : ℚ)
    (n_p : Option ℚ) (k_x : Option ℚ) : Except PyError (ℚ × ℚ) :=
  match pyMulFloat n_p (1 / 10 ^ 6) with
  | Except.error e => Except.error e
  | Except.ok npSI => Except.ok (mbeta ene npSI k_x, mbeta ene npSI k_x)

/-- C8 (code bug): for every external beta function, energy and focusing
strength, calling `get_matched_bunch` with `k_x` supplied and `n_p` omitted
(`None`) raises `TypeError` at the conversion `n_p*1e-6`
(`bunch_generation.py` line 189) — the supplied `k_x` never reaches the beta
function, and no bunch is returned. -/
theorem matched_bunch_kx_only_raises_typeError
    (mbeta : ℚ → ℚ → Option ℚ → ℚ) (ene k_x : ℚ) :
    get_matched_bunch_beta mbeta ene Option.none (Option.some k_x)
      = Except.error PyError.typeError := rfl

namespace ColdFluid

/-- Radial numpy array of the cold-fluid solver, modelled by its entries. -/
def RArr : Type := ℕ → ℚ

/-- Right-hand side of the fluid ODE system,
`NonLinearColdFluidWakefield.__wakefield_ode_system` (`wakefields.py`
lines 255-257): returns `(u_2, (1+laser_a0^2)/(2*(1+u_1)^2) - 1/2)`
elementwise. The beam density `n_beam` is a parameter of the function but
does not occur in the returned value — the beam source term is commented
out in the source (line 256). -/
def wakefield_ode_system (u_1 u_2 : RArr) (r : RArr) (z : ℚ)
    (laser_a0 : RArr) (n_beam : RArr) : RArr × RArr :=
  (u_2, fun j => (1 + laser_a0 j ^ 2) / (2 * (1 + u_1 j) ^ 2) - 1 / 2)

/-- Elementwise scalar multiple of an `(array, array)` pair (the `dz*`
factors of lines 305-315). -/
def scalePair (dz : ℚ) (v : RArr × RArr) : RArr × RArr :=
  (fun j => dz * v.1 j, fun j => dz * v.2 j)

/-- One 4-stage Runge-Kutta update of the `(u_1, u_2)` row pair
(`wakefields.py` lines 304-317), with the driver amplitude sampled at the
start, midpoint and end of the step (`a0_0`, `a0_1`, `a0_2`) and the beam
histogram row `nb`. -/
def rkUpdate (dz : ℚ) (r : RArr) (z s_d : ℚ) (a0_0 a0_1 a0_2 nb : RArr)
    (u : RArr × RArr) : RArr × RArr :=
  let A := scalePair dz (wakefield_ode_system u.1 u.2 r (z * s_d) a0_0 nb)
  let B := scalePair dz (wakefield_ode_system
    (fun j => u.1 j + A.1 j / 2) (fun j => u.2 j + A.2 j / 2) r
    ((z - dz / 2) * s_d) a0_1 nb)
  let C := scalePair dz (wakefield_ode_system
    (fun j => u.1 j + B.1 j / 2) (fun j => u.2 j + B.2 j / 2) r
    ((z - dz / 2) * s_d) a0_1 nb)
  let D := scalePair dz (wakefield_ode_system
    (fun j => u.1 j + C.1 j) (fun j => u.2 j + C.2 j) r
    ((z - dz) * s_d) a0_2 nb)
  (fun j => u.1 j + 1 / 6 * (A.1 j + 2 * B.1 j + 2 * C.1 j + D.1 j),
   fun j => u.2 j + 1 / 6 * (A.2 j + 2 * B.2 j + 2 * C.2 j + D.2 j))

/-- Backward integration of `__calculate_wakefields` (`wakefields.py`
lines 288-318), by recursion on the iteration count: `uRows ... i` is the
`(u_1, u_2)` row pair at grid row `n_xi - 1 - i`; `uRows ... 0` is the zero
initial condition at the top row. Iteration `i` uses `z = z_top - i*dz`
(`z_top = xi_max/s_d`), samples the driver profile `a0prof` (the external
`driver.get_a0_profile`, spec §4.2) at `z*s_d`, `(z-dz/2)*s_d` and
`(z-dz)*s_d` with the distance to focus `dist_z_foc`, and uses the histogram
row `beam_hist[-(i+1)]`, i.e. row `n_xi - 1 - i`. -/
def uRows (a0prof : RArr → ℚ → ℚ → RArr) (r : RArr)
    (s_d dz z_top dist_z_foc : ℚ) (n_xi : ℕ) (beamHist : ℕ → RArr) :
    ℕ → RArr × RArr
  | 0 => (fun _ => 0, fun _ => 0)
  | i + 1 =>
    let z := z_top - (i : ℚ) * dz
    let a0_0 := a0prof r (z * s_d) dist_z_foc
    let a0_1 := a0prof r ((z - dz / 2) * s_d) dist_z_foc
    let a0_2 := a0prof r ((z - dz) * s_d) dist_z_foc
    rkUpdate dz r z s_d a0_0 a0_1 a0_2 (beamHist (n_xi - 1 - i))
      (uRows a0prof r s_d dz z_top dist_z_foc n_xi beamHist i)

/-- Second-order `np.gradient` along axis 0 (rows `0..n`, uniform spacing
`h`, `edge_order=2`): one-sided three-point stencils at the edges, central
differences inside. -/
def grad0 (h : ℚ) (n : ℕ) (f : ℕ → RArr) (k : ℕ) : RArr := fun j =>
  if k = 0 then (-3 * f 0 j + 4 * f 1 j - f 2 j) / (2 * h)
  else if k = n then (3 * f n j - 4 * f (n - 1) j + f (n - 2) j) / (2 * h)
  else (f (k + 1) j - f (k - 1) j) / (2 * h)

/-- Second-order `np.gradient` along axis 1 (columns `0..m`, uniform spacing
`h`, `edge_order=2`). -/
def grad1 (h : ℚ) (m : ℕ) (f : ℕ → RArr) (k : ℕ) : RArr := fun j =>
  if j = 0 then (-3 * f k 0 + 4 * f k 1 - f k 2) / (2 * h)
  else if j = m then (3 * f k m - 4 * f k (m - 1) + f k (m - 2)) / (2 * h)
  else (f k (j + 1) - f k (j - 1)) / (2 * h)

/-- The three field grids the solver interpolates from. -/
structure Grids where
  E_z : ℕ → RArr
  W_r : ℕ → RArr
  K_r : ℕ → RArr

/-- Field-grid computation of
`NonLinearColdFluidWakefield.__calculate_wakefields` (`wakefields.py`
lines 273-349) at fixed density: `s_d` is the external
`plasma_skin_depth(n_p*1e-6)` and `E_0` the external
`plasma_cold_non_relativisct_wave_breaking_field(n_p*1e-6)` (both from the
physics-formulas library); `dz = (xi_max-xi_min)/n_xi/s_d`,
`dr = r_max/n_r/s_d` (lines 275-276); the beam histogram rows `beamHist`
stand for the normalized `beam_hist` of lines 277-287, computed there from
the particle charges `q` and transverse radii; the `(u_1, u_2)` rows come
from the backward Runge-Kutta integration, and the grids are
`E_z = -∂u_1/∂z * E_0`, `W_r = -∂u_1/∂r * E_0`,
`K_r = ∂(-∂u_1/∂r)/∂r * E_0/s_d` (lines 319-321 and 341-349). -/
def calculateWakefieldGrids (a0prof : RArr → ℚ → ℚ → RArr) (r : RArr)
    (s_d E_0 r_max xi_min xi_max dist_z_foc : ℚ) (n_r n_xi : ℕ)
    (beamHist : ℕ → RArr) : Grids :=
  let dz := (xi_max - xi_min) / (n_xi : ℚ) / s_d
  let dr := r_max / (n_r : ℚ) / s_d
  let z_top := xi_max / s_d
  let u1 : ℕ → RArr := fun k =>
    (uRows a0prof r s_d dz z_top dist_z_foc n_xi beamHist (n_xi - 1 - k)).1
  { E_z := fun k => fun j => -(grad0 dz (n_xi - 1) u1 k j) * E_0,
    W_r := fun k => fun j => -(grad1 dr (n_r - 1) u1 k j) * E_0,
    K_r := fun k => fun j =>
      grad1 dr (n_r - 1) (fun a b => -(grad1 dr (n_r - 1) u1 a b)) k j
        * E_0 / s_d }

theorem uRows_beamHist_irrelevant (a0prof : RArr → ℚ → ℚ → RArr) (r : RArr)
    (s_d dz z_top dist_z_foc : ℚ) (n_xi : ℕ) (bh bh2 : ℕ → RArr) :
    ∀ i, uRows a0prof r s_d dz z_top dist_z_foc n_xi bh i
      = uRows a0prof r s_d dz z_top dist_z_foc n_xi bh2 i := by
  intro i
  induction i with
  | zero => rfl
  | succ n ih =>
      show rkUpdate _ _ _ _ _ _ _ _ _ = rkUpdate _ _ _ _ _ _ _ _ _
      rw [ih]
      rfl

end ColdFluid

/-- C9: the wakefields computed by `NonLinearColdFluidWakefield` are
independent of the beam's charge density: the ODE right-hand side accepts
but ignores the beam term, and consequently, for the same driver profile,
density and grid, the resulting `E_z`, `W_r` and `K_r` field grids are
identical for any two beam histograms — hence for any two sets of particle
charges and transverse positions entering the histogram of lines 277-287,
which is computed but never enters the ODE. -/
theorem coldfluid_fields_independent_of_beam_density
    (u_1 u_2 r : ColdFluid.RArr) (z : ℚ) (a0 nb nb2 : ColdFluid.RArr)
    (a0prof : ColdFluid.RArr → ℚ → ℚ → ColdFluid.RArr) (rr : ColdFluid.RArr)
    (s_d E_0 r_max xi_min xi_max dist_z_foc : ℚ) (n_r n_xi : ℕ)
    (bh bh2 : ℕ → ColdFluid.RArr) :
    ColdFluid.wakefield_ode_system u_1 u_2 r z a0 nb
      = ColdFluid.wakefield_ode_system u_1 u_2 r z a0 nb2 ∧
    ColdFluid.calculateWakefieldGrids a0prof rr s_d E_0 r_max xi_min xi_max
        dist_z_foc n_r n_xi bh
      = ColdFluid.calculateWakefieldGrids a0prof rr s_d E_0 r_max xi_min
          xi_max dist_z_foc n_r n_xi bh2 := by
  constructor
  · rfl
  · have hu2 : ∀ dz z_top : ℚ, (fun k =>
        (ColdFluid.uRows a0prof rr s_d dz z_top dist_z_foc n_xi bh
          (n_xi - 1 - k)).1)
        = (fun k =>
        (ColdFluid.uRows a0prof rr s_d dz z_top dist_z_foc n_xi bh2
          (n_xi - 1 - k)).1) := by
      intro dz z_top
      funext k
      rw [ColdFluid.uRows_beamHist_irrelevant a0prof rr s_d dz z_top
        dist_z_foc n_xi bh bh2]
    unfold ColdFluid.calculateWakefieldGrids
    dsimp only
    rw [hu2]

end WakeT
